import Mathlib

/-!
Shallow embedding of the adventure-simulator event engine
(SIMULADOR_AVENTURAS: gestor_eventos.py, gestor_atributos.py,
gestor_equipo.py, gestor_caracteristicas.py, gestor_personajes.py,
gestor_probabilidades_personaje.py, main.py).

The Python character is a positional list; the indices used by the engine
(IndicesPersonaje) are: 8/10/12/14/16/18/20/22 for the absolute attributes
F/RM/RF/A/I/M/E/C, 23 for the running total, 25/26/27 for the
events-lived/wins/losses counters, 28 for the alive flag and 29 for the
open RESERVADO1 slot holding the characteristic list.  We model the record
as a structure with one field per relevant position, plus index-based
accessors getAttr/setAttr so that the positional attribute arithmetic of
the source (obtener_indice_atributo and friends) is kept verbatim.
Randomness and the wall clock are modelled as oracle inputs (Azar).
-/

namespace Simulador

/-- The five event outcomes with their numeric values (ResultadoEvento). -/
inductive ResultadoEvento where
  | exitoEpico
  | exito
  | normal
  | fracaso
  | fracasoEpico
deriving DecidableEq, Repr

/-- Numeric value of an outcome: +3 / +1 / 0 / -1 / -3. -/
def ResultadoEvento.value : ResultadoEvento → Int
  | .exitoEpico => 3
  | .exito => 1
  | .normal => 0
  | .fracaso => -1
  | .fracasoEpico => -3

/-- One characteristic record, as the dict literal built in
EventoCaracteristica.aplicar_consecuencias (keys fuerza, es_bendicion,
efecto, evento_id, timestamp, activo). -/
structure RegistroCaracteristica where
  fuerza : String
  esBendicion : Bool
  efecto : String
  eventoId : String
  timestamp : Int
  activo : Bool
deriving DecidableEq, Repr

/-- The dynamic value stored at position RESERVADO1 (29) of the character
list: initially None, normally a list of characteristic records, possibly a
legacy integer counter, or any other (mal-typed) value. -/
inductive Reservado1 where
  | nada
  | lista (rs : List RegistroCaracteristica)
  | entero (n : Int)
  | otro
deriving DecidableEq, Repr

/-- The character record.  Field names follow IndicesPersonaje:
fAbs..cAbs are positions 8,10,12,14,16,18,20,22, sumaTotal is 23,
eventosVida/victorias/derrotas are 25/26/27, vivo is 28, reservado1 is 29.
clase is position 5 (used only by the probability calculator). -/
@[ext]
structure Personaje where
  clase : String
  fAbs : Int
  rmAbs : Int
  rfAbs : Int
  aAbs : Int
  iAbs : Int
  mAbs : Int
  eAbs : Int
  cAbs : Int
  sumaTotal : Int
  eventosVida : Nat
  victorias : Nat
  derrotas : Nat
  vivo : Bool
  reservado1 : Reservado1
deriving DecidableEq, Repr

/-- IndicesPersonaje.ATRIBUTOS_ABS = [8, 10, 12, 14, 16, 18, 20, 22]. -/
def atributosAbs : List Nat := [8, 10, 12, 14, 16, 18, 20, 22]

/-- gestor_eventos.obtener_indice_atributo: dict lookup with default 8
(attribute F) for any unrecognized name. -/
def obtener_indice_atributo (atributo : String) : Nat :=
  if atributo = "F" then 8
  else if atributo = "RM" then 10
  else if atributo = "RF" then 12
  else if atributo = "A" then 14
  else if atributo = "I" then 16
  else if atributo = "M" then 18
  else if atributo = "E" then 20
  else if atributo = "C" then 22
  else 8

/-- Read position idx of the character list (attribute positions only). -/
def getAttr (p : Personaje) (idx : Nat) : Int :=
  if idx = 8 then p.fAbs
  else if idx = 10 then p.rmAbs
  else if idx = 12 then p.rfAbs
  else if idx = 14 then p.aAbs
  else if idx = 16 then p.iAbs
  else if idx = 18 then p.mAbs
  else if idx = 20 then p.eAbs
  else if idx = 22 then p.cAbs
  else 0

/-- Write position idx of the character list (attribute positions only). -/
def setAttr (p : Personaje) (idx : Nat) (v : Int) : Personaje :=
  if idx = 8 then { p with fAbs := v }
  else if idx = 10 then { p with rmAbs := v }
  else if idx = 12 then { p with rfAbs := v }
  else if idx = 14 then { p with aAbs := v }
  else if idx = 16 then { p with iAbs := v }
  else if idx = 18 then { p with mAbs := v }
  else if idx = 20 then { p with eAbs := v }
  else if idx = 22 then { p with cAbs := v }
  else p

/-- sum(personaje[i] for i in indices_abs). -/
def sumAtributos (p : Personaje) : Int :=
  (atributosAbs.map (getAttr p)).sum

/-- gestor_eventos.recalcular_suma_total: personaje[23] = sum of the eight
absolute attributes. -/
def recalcularSumaTotal (p : Personaje) : Personaje :=
  { p with sumaTotal := sumAtributos p }

/-- gestor_eventos.asegurar_no_negativo: if personaje[indice] < 0 then
personaje[indice] = 0. -/
def asegurarNoNegativo (p : Personaje) (indice : Nat) : Personaje :=
  if getAttr p indice < 0 then setAttr p indice 0 else p

/-- The d100 thresholds of gestor_atributos.UmbralesD100. -/
def UmbralesD100.EXITO_EPICO : Int := 150

/-- Threshold for a plain success. -/
def UmbralesD100.EXITO : Int := 100

/-- Threshold for a neutral result. -/
def UmbralesD100.NORMAL : Int := 60

/-- Threshold for a plain failure. -/
def UmbralesD100.FRACASO : Int := 30

/-- The event variants of the engine with their per-event configuration:
EventoEquipoSimple (atributo, bonus_exito, bonus_fracaso),
EventoEquipoDoble (atributo_principal, atributo_secundario, bonus_exito,
penalizacion), EventoEquipoGlobal (bonus_exito), EventoAtributo
(atributo_principal, atributo_secundario) and EventoCaracteristica
(fuerza, es_bendicion, efecto, id).  The success probabilities of the
equipment variants and the death probability only feed random draws, which
are modelled by the oracle Azar, so they are not carried here.  ts models
the datetime.now() timestamp read while applying a characteristic event. -/
inductive Evento where
  | equipoSimple (atributo : String) (bonusExito bonusFracaso : Int)
  | equipoDoble (atributoPrincipal atributoSecundario : String)
      (bonusExito penalizacion : Int)
  | equipoGlobal (bonusExito : Int)
  | atributo (atributoPrincipal : String) (atributoSecundario : Option String)
  | caracteristica (fuerza : String) (esBendicion : Bool) (efecto : String)
      (idEvento : String) (ts : Int)
deriving DecidableEq, Repr

/-- Oracle for the random draws of one event execution: exito is the value
of (random.random() < probabilidad_exito) for equipment events, dado is the
d100 roll random.randint(1, 100) for attribute-check events, and muere is
the value of (random.random() < prob_muerte) for the death probe. -/
structure Azar where
  exito : Bool
  dado : Nat
  muere : Bool
deriving DecidableEq, Repr

/-- EventoAtributo.calcular_resultado, as a function of the die roll and
the two attribute values it reads from the character:
total = dado + valor_principal // 2 + valor_secundario // 4 (0 when no
secondary attribute is configured); natural 100 and 1 take priority, then
the descending UmbralesD100 thresholds decide. -/
def calcularResultadoAtributo (dado : Nat) (valorPrincipal : Int)
    (valorSecundario : Option Int) : ResultadoEvento :=
  let contribSecundario : Int :=
    match valorSecundario with
    | some v => Int.fdiv v 4
    | none => 0
  let contribPrincipal : Int := Int.fdiv valorPrincipal 2
  let total : Int := (dado : Int) + contribPrincipal + contribSecundario
  if dado = 100 then .exitoEpico
  else if dado = 1 then .fracasoEpico
  else if UmbralesD100.EXITO_EPICO ≤ total then .exitoEpico
  else if UmbralesD100.EXITO ≤ total then .exito
  else if UmbralesD100.NORMAL ≤ total then .normal
  else if UmbralesD100.FRACASO ≤ total then .fracaso
  else .fracasoEpico

/-- calcular_resultado of each event variant.  Equipment events are a pure
probability draw (oracle bit exito); attribute-check events use the d100
system over the character's current attribute values; characteristic events
always return None. -/
def calcularResultado (ev : Evento) (az : Azar) (p : Personaje) :
    Option ResultadoEvento :=
  match ev with
  | .equipoSimple _ _ _ =>
      some (if az.exito then .exito else .fracaso)
  | .equipoDoble _ _ _ _ =>
      some (if az.exito then .exito else .fracaso)
  | .equipoGlobal _ =>
      some (if az.exito then .exito else .fracaso)
  | .atributo ap as =>
      some (calcularResultadoAtributo az.dado
        (getAttr p (obtener_indice_atributo ap))
        (as.map (fun s => getAttr p (obtener_indice_atributo s))))
  | .caracteristica _ _ _ _ _ => none

/-- The loop body of EventoEquipoGlobal.aplicar_consecuencias: add the
bonus to the attribute at idx and clamp it at zero. -/
def pasoGlobal (bonus : Int) (q : Personaje) (idx : Nat) : Personaje :=
  asegurarNoNegativo (setAttr q idx (getAttr q idx + bonus)) idx

/-- aplicar_consecuencias of each event variant, translated clause by
clause from gestor_equipo.py, gestor_atributos.py and
gestor_caracteristicas.py. -/
def aplicarConsecuencias (ev : Evento) (p : Personaje)
    (resultado : Option ResultadoEvento) : Personaje :=
  match ev with
  | .equipoSimple atributo bonusExito bonusFracaso =>
      match resultado with
      | none => p
      | some res =>
          let idx := obtener_indice_atributo atributo
          let p1 :=
            if res = .exito then setAttr p idx (getAttr p idx + bonusExito)
            else if res = .fracaso then
              setAttr p idx (getAttr p idx + bonusFracaso)
            else p
          recalcularSumaTotal (asegurarNoNegativo p1 idx)
  | .equipoDoble atributoPrincipal atributoSecundario bonusExito penalizacion =>
      match resultado with
      | none => p
      | some res =>
          if res ≠ .exito then p
          else
            let idxPri := obtener_indice_atributo atributoPrincipal
            let idxSec := obtener_indice_atributo atributoSecundario
            let p1 := setAttr p idxPri (getAttr p idxPri + bonusExito)
            let p2 := setAttr p1 idxSec (getAttr p1 idxSec + penalizacion)
            recalcularSumaTotal
              (asegurarNoNegativo (asegurarNoNegativo p2 idxPri) idxSec)
  | .equipoGlobal bonusExito =>
      match resultado with
      | none => p
      | some res =>
          if res ≠ .exito then p
          else
            recalcularSumaTotal (atributosAbs.foldl (pasoGlobal bonusExito) p)
  | .atributo atributoPrincipal atributoSecundario =>
      match resultado with
      | none => p
      | some res =>
          let idxPrincipal := obtener_indice_atributo atributoPrincipal
          let p1 := asegurarNoNegativo
            (setAttr p idxPrincipal (getAttr p idxPrincipal + res.value))
            idxPrincipal
          let p2 :=
            match atributoSecundario with
            | some s =>
                if 3 ≤ |res.value| then
                  let idxSecundario := obtener_indice_atributo s
                  let cambioSecundario : Int := if 0 < res.value then 1 else -1
                  asegurarNoNegativo
                    (setAttr p1 idxSecundario
                      (getAttr p1 idxSecundario + cambioSecundario))
                    idxSecundario
                else p1
            | none => p1
          recalcularSumaTotal p2
  | .caracteristica fuerza esBendicion efecto idEvento ts =>
      let registro : RegistroCaracteristica :=
        ⟨fuerza, esBendicion, efecto, idEvento, ts, true⟩
      match p.reservado1 with
      | .nada => { p with reservado1 := .lista [registro] }
      | .lista rs => { p with reservado1 := .lista (rs ++ [registro]) }
      | .entero contador =>
          let historico : RegistroCaracteristica :=
            ⟨"Histórico", false,
              "caracteristicas_antiguas_" ++ toString contador, "legacy", 0,
              true⟩
          if 0 < contador then
            { p with reservado1 := Reservado1.lista [historico, registro] }
          else { p with reservado1 := .lista [registro] }
      | .otro => { p with reservado1 := .lista [registro] }

/-- EventoAtributo.probar_muerte as called from main.ejecutar_evento: only
attribute-check events probe death, only on an epic failure, with the oracle
bit muere standing for (random.random() < prob_muerte). -/
def probarMuerte (ev : Evento) (az : Azar)
    (resultado : Option ResultadoEvento) : Bool :=
  match ev with
  | .atributo _ _ => resultado = some .fracasoEpico && az.muere
  | _ => false

/-- GestorPersonajes.registrar_evento: events-lived counter always +1, wins
+1 on a positive outcome value, losses +1 on a negative one. -/
def registrarEvento (p : Personaje) (resultadoValor : Int) : Personaje :=
  let p1 := { p with eventosVida := p.eventosVida + 1 }
  if 0 < resultadoValor then { p1 with victorias := p1.victorias + 1 }
  else if resultadoValor < 0 then { p1 with derrotas := p1.derrotas + 1 }
  else p1

/-- GestorPersonajes.marcar_como_muerto: a no-op for an already dead
character; otherwise clear the alive flag and append the character to the
dead-roster personajes_muertos. -/
def marcarComoMuerto (p : Personaje) (muertos : List Personaje) :
    Personaje × List Personaje :=
  if p.vivo = false then (p, muertos)
  else
    let q := { p with vivo := false }
    (q, muertos ++ [q])

/-- SimuladorAventuras.ejecutar_evento: compute the outcome (None for a
characteristic event) and the death probe, apply the consequences, then
register the event on the character only when the outcome is non-None
(Python: if resultado: — enum members are truthy, None is not), and finally
mark the character dead when the probe fired.  Returns the updated
character and dead-roster. -/
def ejecutarEvento (ev : Evento) (az : Azar) (p : Personaje)
    (muertos : List Personaje) : Personaje × List Personaje :=
  let resultado := calcularResultado ev az p
  let murio := probarMuerte ev az resultado
  let p1 := aplicarConsecuencias ev p resultado
  let p2 :=
    match resultado with
    | some res => registrarEvento p1 res.value
    | none => p1
  if murio then marcarComoMuerto p2 muertos else (p2, muertos)

/-- The per-character inner loop of SimuladorAventuras.simular_individual:
for each of the configured turns, first check the alive flag and break when
it is down; then fetch an event (a None entry models the turn where neither
the personalized nor the fallback selection produced an event: continue);
otherwise execute the event.  Besides the final character and dead-roster,
the function collects the character states passed to ejecutar_evento (the
subjects of resolve/applyConsequences calls). -/
def simularTurnos (plan : List (Option (Evento × Azar))) (p : Personaje)
    (muertos : List Personaje) :
    Personaje × List Personaje × List Personaje :=
  match plan with
  | [] => (p, muertos, [])
  | turno :: resto =>
      if p.vivo = false then (p, muertos, [])
      else
        match turno with
        | none => simularTurnos resto p muertos
        | some (ev, az) =>
            let paso := ejecutarEvento ev az p muertos
            let restoRes := simularTurnos resto paso.1 paso.2
            (restoRes.1, restoRes.2.1, p :: restoRes.2.2)

/-- The five per-category weights handled by CalculadorProbabilidades.
The source mixes int bases with float normalization; we model the values
as rationals. -/
@[ext]
structure Pesos where
  combate : ℚ
  magia : ℚ
  exploracion : ℚ
  social : ℚ
  mistico : ℚ
deriving DecidableEq, Repr

/-- CalculadorProbabilidades.PESOS_BASE: 20 per category. -/
def PESOS_BASE : Pesos := ⟨20, 20, 20, 20, 20⟩

/-- One entry of the class→category-modifier table MOD_CLASE. -/
structure ModificadoresClase where
  combate : Int
  magia : Int
  exploracion : Int
  social : Int
  mistico : Int
deriving DecidableEq, Repr

/-- max(0, (valor - 50) // 10), the per-attribute category bonus. -/
def bonoAtributo (valor : Int) : Int := max 0 (Int.fdiv (valor - 50) 10)

/-- max(0, (valor - 50) // 15), the reduced mystic bonus fed by E. -/
def bonoMistico (valor : Int) : Int := max 0 (Int.fdiv (valor - 50) 15)

/-- CalculadorProbabilidades._aplicar_modificadores_atributos: combate from
F and RF, magia from RM and M, exploracion from A and I, social from E and
C, and a reduced mistico bonus from E. -/
def aplicarModificadoresAtributos (p : Personaje) (pesos : Pesos) : Pesos :=
  { pesos with
    combate := pesos.combate + bonoAtributo p.fAbs + bonoAtributo p.rfAbs
    magia := pesos.magia + bonoAtributo p.rmAbs + bonoAtributo p.mAbs
    exploracion := pesos.exploracion + bonoAtributo p.aAbs + bonoAtributo p.iAbs
    social := pesos.social + bonoAtributo p.eAbs + bonoAtributo p.cAbs
    mistico := pesos.mistico + bonoMistico p.eAbs }

/-- CalculadorProbabilidades._aplicar_modificadores_clase: add the entry of
the class-modifier table for the character's class, when there is one.
The table itself (MOD_CLASE, loaded from clases.json at startup) is passed
as a lookup function. -/
def aplicarModificadoresClase (modClase : String → Option ModificadoresClase)
    (p : Personaje) (pesos : Pesos) : Pesos :=
  match modClase p.clase with
  | none => pesos
  | some m =>
      { pesos with
        combate := pesos.combate + m.combate
        magia := pesos.magia + m.magia
        exploracion := pesos.exploracion + m.exploracion
        social := pesos.social + m.social
        mistico := pesos.mistico + m.mistico }

/-- Sum of the five weights. -/
def sumaPesos (pesos : Pesos) : ℚ :=
  pesos.combate + pesos.magia + pesos.exploracion + pesos.social +
    pesos.mistico

/-- CalculadorProbabilidades._normalizar: scale the weights so they sum to
100, falling back to the equal base weights when the total is ≤ 0. -/
def normalizarPesos (pesos : Pesos) : Pesos :=
  let total := sumaPesos pesos
  if total ≤ 0 then PESOS_BASE
  else
    ⟨pesos.combate / total * 100, pesos.magia / total * 100,
      pesos.exploracion / total * 100, pesos.social / total * 100,
      pesos.mistico / total * 100⟩

/-- CalculadorProbabilidades.calcular_pesos: base weights, plus attribute
modifiers, plus class modifiers, then normalization. -/
def calcularPesos (modClase : String → Option ModificadoresClase)
    (p : Personaje) : Pesos :=
  normalizarPesos
    (aplicarModificadoresClase modClase p
      (aplicarModificadoresAtributos p PESOS_BASE))

/-- The non-attribute fields of a character (class, the three counters, the
alive flag and the characteristic slot), used to state frame conditions. -/
def camposSim (p : Personaje) :
    String × Nat × Nat × Nat × Bool × Reservado1 :=
  (p.clase, p.eventosVida, p.victorias, p.derrotas, p.vivo, p.reservado1)

/-- Written from the claim wording for the attribute-check resolution: with
total = die + floor(primary/2) + floor(secondary/4) (secondary contribution
0 when none is configured), die 100 forces a critical success and die 1 a
critical failure, then the descending thresholds 150/100/60/30 decide. -/
def resultadoAtributoSpec (dado : Nat) (valorPrincipal : Int)
    (valorSecundario : Option Int) : ResultadoEvento :=
  let total : Int := (dado : Int) + Int.fdiv valorPrincipal 2 +
    ((valorSecundario.map (fun v => Int.fdiv v 4)).getD 0)
  if dado = 100 then .exitoEpico
  else if dado = 1 then .fracasoEpico
  else if 150 ≤ total then .exitoEpico
  else if 100 ≤ total then .exito
  else if 60 ≤ total then .normal
  else if 30 ≤ total then .fracaso
  else .fracasoEpico

/-- Written from the claim wording for the attribute-check consequences:
the primary attribute gains the outcome value clamped at zero from below;
exactly when a secondary attribute is configured and the absolute outcome
value is at least 3, the secondary attribute additionally gains the sign of
the outcome, clamped at zero; finally the total is recomputed as the sum of
the eight absolute attributes. -/
def aplicarAtributoSpec (atributoPrincipal : String)
    (atributoSecundario : Option String) (p : Personaje)
    (res : ResultadoEvento) : Personaje :=
  let idxP := obtener_indice_atributo atributoPrincipal
  let p1 := setAttr p idxP (max 0 (getAttr p idxP + res.value))
  let p2 :=
    match atributoSecundario with
    | some s =>
        if 3 ≤ |res.value| then
          let idxS := obtener_indice_atributo s
          let signo : Int := if 0 < res.value then 1 else -1
          setAttr p1 idxS (max 0 (getAttr p1 idxS + signo))
        else p1
    | none => p1
  { p2 with sumaTotal := sumAtributos p2 }

/-- A baseline character: all eight absolute attributes at 50, total 400,
alive, fresh simulation counters, empty characteristic slot. -/
def pBase : Personaje :=
  ⟨"Guerrero", 50, 50, 50, 50, 50, 50, 50, 50, 400, 0, 0, 0, true, .nada⟩

/-- The worked character of the spec example: primary attribute F at 80 and
secondary attribute RM at 60. -/
def pOchenta : Personaje :=
  ⟨"Guerrero", 80, 60, 50, 50, 50, 50, 50, 50, 440, 0, 0, 0, true, .nada⟩

theorem indice_mem (s : String) : obtener_indice_atributo s ∈ atributosAbs := by
  unfold obtener_indice_atributo atributosAbs
  repeat' split
  all_goals simp

theorem getAttr_setAttr_same (p : Personaje) (i : Nat) (v : Int)
    (hi : i ∈ atributosAbs) : getAttr (setAttr p i v) i = v := by
  simp only [atributosAbs, List.mem_cons, List.not_mem_nil, or_false] at hi
  rcases hi with rfl | rfl | rfl | rfl | rfl | rfl | rfl | rfl <;>
    simp [getAttr, setAttr]

theorem getAttr_setAttr_ne (p : Personaje) (i j : Nat) (v : Int)
    (hi : i ∈ atributosAbs) (hj : j ∈ atributosAbs) (hne : j ≠ i) :
    getAttr (setAttr p i v) j = getAttr p j := by
  simp only [atributosAbs, List.mem_cons, List.not_mem_nil, or_false] at hi hj
  rcases hi with rfl | rfl | rfl | rfl | rfl | rfl | rfl | rfl <;>
    rcases hj with rfl | rfl | rfl | rfl | rfl | rfl | rfl | rfl <;>
      simp_all [getAttr, setAttr]

theorem asegurar_setAttr (p : Personaje) (i : Nat) (v : Int)
    (hi : i ∈ atributosAbs) :
    asegurarNoNegativo (setAttr p i v) i = setAttr p i (max 0 v) := by
  unfold asegurarNoNegativo
  rw [getAttr_setAttr_same p i v hi]
  simp only [atributosAbs, List.mem_cons, List.not_mem_nil, or_false] at hi
  rcases hi with rfl | rfl | rfl | rfl | rfl | rfl | rfl | rfl <;>
    · split <;> simp_all [setAttr] <;> omega

theorem getAttr_asegurar_same (q : Personaje) (i : Nat)
    (hi : i ∈ atributosAbs) :
    getAttr (asegurarNoNegativo q i) i = max 0 (getAttr q i) := by
  unfold asegurarNoNegativo
  split <;> rename_i h
  · rw [getAttr_setAttr_same q i 0 hi]; omega
  · omega

theorem getAttr_asegurar_ne (q : Personaje) (i j : Nat)
    (hi : i ∈ atributosAbs) (hj : j ∈ atributosAbs) (hne : j ≠ i) :
    getAttr (asegurarNoNegativo q i) j = getAttr q j := by
  unfold asegurarNoNegativo
  split
  · exact getAttr_setAttr_ne q i j 0 hi hj hne
  · rfl

theorem getAttr_recalc (p : Personaje) (j : Nat) :
    getAttr (recalcularSumaTotal p) j = getAttr p j := by
  simp [recalcularSumaTotal, getAttr]

theorem sumAtributos_recalc (p : Personaje) :
    sumAtributos (recalcularSumaTotal p) = sumAtributos p := by
  simp [sumAtributos, recalcularSumaTotal, getAttr, atributosAbs]

theorem sumaTotal_recalc (p : Personaje) :
    (recalcularSumaTotal p).sumaTotal = sumAtributos p := rfl

theorem camposSim_setAttr (p : Personaje) (i : Nat) (v : Int) :
    camposSim (setAttr p i v) = camposSim p := by
  unfold setAttr; split_ifs <;> rfl

theorem camposSim_asegurar (q : Personaje) (i : Nat) :
    camposSim (asegurarNoNegativo q i) = camposSim q := by
  unfold asegurarNoNegativo
  split
  · exact camposSim_setAttr q i 0
  · rfl

theorem camposSim_recalc (p : Personaje) :
    camposSim (recalcularSumaTotal p) = camposSim p := rfl

theorem recalc_total_eq (q : Personaje) :
    (recalcularSumaTotal q).sumaTotal = sumAtributos (recalcularSumaTotal q) := by
  rw [sumaTotal_recalc, sumAtributos_recalc]

theorem sumAtributos_reservado1 (p : Personaje) (x : Reservado1) :
    sumAtributos { p with reservado1 := x } = sumAtributos p := by
  simp [sumAtributos, getAttr, atributosAbs]

/-- Claim C1: the d100 attribute-check resolution computes
total = die + floor(primary/2) + floor(secondary/4) (secondary contribution
0 when none is configured) for a die in [1, 100], with natural 100 forcing
a critical success and natural 1 a critical failure before the descending
thresholds 150/100/60/30 are compared; in particular primary 80 and
secondary 60 with die 50 give total 105 and a plain success. -/
theorem resolucion_atributo_correcta :
    (∀ (ap : String) (as : Option String) (az : Azar) (p : Personaje),
        1 ≤ az.dado → az.dado ≤ 100 →
        calcularResultado (.atributo ap as) az p =
          some (resultadoAtributoSpec az.dado
            (getAttr p (obtener_indice_atributo ap))
            (as.map (fun s => getAttr p (obtener_indice_atributo s))))) ∧
      (50 : Int) + Int.fdiv 80 2 + Int.fdiv 60 4 = 105 ∧
      calcularResultado (.atributo "F" (some "RM")) ⟨false, 50, false⟩
          pOchenta = some .exito := by
  refine ⟨?_, by decide, by decide⟩
  intro ap as az p _ _
  cases as <;>
    simp [calcularResultado, calcularResultadoAtributo, resultadoAtributoSpec,
      UmbralesD100.EXITO_EPICO, UmbralesD100.EXITO, UmbralesD100.NORMAL,
      UmbralesD100.FRACASO]

/-- Witness for the claim C1 theorem at a concrete die roll. -/
theorem resolucion_atributo_correcta_witness :
    calcularResultado (.atributo "F" (some "RM")) ⟨false, 50, false⟩
        pOchenta =
      some (resultadoAtributoSpec 50
        (getAttr pOchenta (obtener_indice_atributo "F"))
        ((some "RM").map (fun s => getAttr pOchenta (obtener_indice_atributo s)))) :=
  resolucion_atributo_correcta.1 "F" (some "RM") ⟨false, 50, false⟩ pOchenta
    (by decide) (by decide)

/-- Claim C2: applying the consequences of an attribute-check event adds
the outcome value to the primary attribute clamped at zero, additionally
moves the secondary attribute by the sign of the outcome exactly when one
is configured and the absolute outcome value is at least 3 (also clamped),
recomputes the total as the sum of the eight absolute attributes, and
changes nothing else. -/
theorem consecuencias_atributo_correctas :
    ∀ (ap : String) (as : Option String) (p : Personaje)
      (res : ResultadoEvento),
      aplicarConsecuencias (.atributo ap as) p (some res) =
        aplicarAtributoSpec ap as p res ∧
      (aplicarConsecuencias (.atributo ap as) p (some res)).sumaTotal =
        sumAtributos (aplicarConsecuencias (.atributo ap as) p (some res)) ∧
      camposSim (aplicarConsecuencias (.atributo ap as) p (some res)) =
        camposSim p := by
  intro ap as p res
  refine ⟨?_, ?_, ?_⟩
  · cases as with
    | none =>
        simp only [aplicarConsecuencias, aplicarAtributoSpec,
          recalcularSumaTotal]
        rw [asegurar_setAttr _ _ _ (indice_mem ap)]
    | some s =>
        simp only [aplicarConsecuencias, aplicarAtributoSpec,
          recalcularSumaTotal]
        rw [asegurar_setAttr _ _ _ (indice_mem ap)]
        split
        · rw [asegurar_setAttr _ _ _ (indice_mem s)]
        · rfl
  · simp only [aplicarConsecuencias]
    exact recalc_total_eq _
  · cases as with
    | none =>
        simp [aplicarConsecuencias, camposSim_recalc, camposSim_asegurar,
          camposSim_setAttr]
    | some s =>
        simp only [aplicarConsecuencias, camposSim_recalc]
        split <;>
          simp [camposSim_asegurar, camposSim_setAttr]

/-- The numeric value used for win/loss bookkeeping: the outcome value, or
0 when the event had no outcome. -/
def valorResultado : Option ResultadoEvento → Int
  | some res => res.value
  | none => 0

/-- The three event counters and the alive flag of a character. -/
def contadoresVivo (p : Personaje) : Nat × Nat × Nat × Bool :=
  (p.eventosVida, p.victorias, p.derrotas, p.vivo)

theorem contadoresVivo_setAttr (p : Personaje) (i : Nat) (v : Int) :
    contadoresVivo (setAttr p i v) = contadoresVivo p := by
  unfold setAttr; split_ifs <;> rfl

theorem contadoresVivo_asegurar (q : Personaje) (i : Nat) :
    contadoresVivo (asegurarNoNegativo q i) = contadoresVivo q := by
  unfold asegurarNoNegativo
  split
  · exact contadoresVivo_setAttr q i 0
  · rfl

theorem contadoresVivo_recalc (p : Personaje) :
    contadoresVivo (recalcularSumaTotal p) = contadoresVivo p := rfl

theorem contadoresVivo_aplicar (ev : Evento) (p : Personaje)
    (r : Option ResultadoEvento) :
    contadoresVivo (aplicarConsecuencias ev p r) = contadoresVivo p := by
  cases ev with
  | equipoSimple a be bf =>
      cases r with
      | none => rfl
      | some res =>
          simp only [aplicarConsecuencias, contadoresVivo_recalc,
            contadoresVivo_asegurar]
          split_ifs <;> simp [contadoresVivo_setAttr]
  | equipoDoble a b be pen =>
      cases r with
      | none => rfl
      | some res =>
          simp only [aplicarConsecuencias]
          split_ifs with h
          · rfl
          · simp [contadoresVivo_recalc, contadoresVivo_asegurar,
              contadoresVivo_setAttr]
  | equipoGlobal be =>
      cases r with
      | none => rfl
      | some res =>
          simp only [aplicarConsecuencias]
          split_ifs with h
          · rfl
          · simp [atributosAbs, pasoGlobal, contadoresVivo_recalc,
              contadoresVivo_asegurar, contadoresVivo_setAttr]
  | atributo ap as =>
      cases r with
      | none => rfl
      | some res =>
          cases as with
          | none =>
              simp [aplicarConsecuencias, contadoresVivo_recalc,
                contadoresVivo_asegurar, contadoresVivo_setAttr]
          | some s =>
              simp only [aplicarConsecuencias, contadoresVivo_recalc]
              split_ifs <;>
                simp [contadoresVivo_asegurar, contadoresVivo_setAttr]
  | caracteristica f b e i ts =>
      cases hr : p.reservado1 <;>
        simp only [aplicarConsecuencias, hr] <;>
          first
          | rfl
          | (split_ifs <;> rfl)

theorem registrarEvento_campos (p : Personaje) (v : Int) :
    (registrarEvento p v).eventosVida = p.eventosVida + 1 ∧
      (registrarEvento p v).victorias =
        p.victorias + (if 0 < v then 1 else 0) ∧
      (registrarEvento p v).derrotas =
        p.derrotas + (if v < 0 then 1 else 0) ∧
      (registrarEvento p v).vivo = p.vivo := by
  unfold registrarEvento
  split_ifs <;> simp_all <;> omega

theorem marcar_contadores (p : Personaje) (m : List Personaje) :
    (marcarComoMuerto p m).1.eventosVida = p.eventosVida ∧
      (marcarComoMuerto p m).1.victorias = p.victorias ∧
      (marcarComoMuerto p m).1.derrotas = p.derrotas := by
  unfold marcarComoMuerto
  split_ifs <;> simp

/-- Claim C3, counterexample: the events-lived counter does not move on a
Characteristic event — its outcome is None, so main.ejecutar_evento skips
registrar_evento entirely (Python: if resultado:), contradicting the claim
that every executed event of any variant raises the counter by one. -/
theorem contador_caracteristica_contraejemplo :
    ¬ ((ejecutarEvento
          (.caracteristica "Bendición de la Vida" true "res" "C1" 7)
          ⟨false, 50, false⟩ pBase []).1.eventosVida =
        pBase.eventosVida + 1) := by decide

/-- Claim C3, amended: after main.ejecutar_evento the events-lived counter
rises by one exactly when the computed outcome is non-None (always, for
Equipment and Attribute-Check events; never, for Characteristic events,
which therefore leave all three counters untouched), the win counter rises
by one exactly when the outcome value is positive, and the loss counter
exactly when it is negative. -/
theorem contadores_tras_evento :
    ∀ (ev : Evento) (az : Azar) (p : Personaje) (muertos : List Personaje),
      (ejecutarEvento ev az p muertos).1.eventosVida =
        p.eventosVida +
          (if (calcularResultado ev az p).isSome then 1 else 0) ∧
      (ejecutarEvento ev az p muertos).1.victorias =
        p.victorias +
          (if 0 < valorResultado (calcularResultado ev az p) then 1 else 0) ∧
      (ejecutarEvento ev az p muertos).1.derrotas =
        p.derrotas +
          (if valorResultado (calcularResultado ev az p) < 0 then 1
            else 0) := by
  intro ev az p muertos
  have hap := contadoresVivo_aplicar ev p (calcularResultado ev az p)
  simp only [contadoresVivo, Prod.mk.injEq] at hap
  obtain ⟨he, hv, hd, _⟩ := hap
  simp only [ejecutarEvento]
  cases hr : calcularResultado ev az p with
  | none =>
      simp only [hr] at he hv hd ⊢
      simp only [valorResultado, Option.isSome_none]
      split_ifs <;>
        simp_all [marcar_contadores, (marcar_contadores _ _).1,
          (marcar_contadores _ _).2.1, (marcar_contadores _ _).2.2]
  | some res =>
      simp only [hr] at he hv hd ⊢
      simp only [valorResultado, Option.isSome_some]
      have hreg := registrarEvento_campos
        (aplicarConsecuencias ev p (some res)) res.value
      obtain ⟨hre, hrv, hrd, _⟩ := hreg
      split_ifs with hm <;>
        · obtain ⟨hme, hmv, hmd⟩ := marcar_contadores
            (registrarEvento (aplicarConsecuencias ev p (some res)) res.value)
            muertos
          simp_all

theorem aplicar_vivo (ev : Evento) (p : Personaje)
    (r : Option ResultadoEvento) :
    (aplicarConsecuencias ev p r).vivo = p.vivo := by
  have h := contadoresVivo_aplicar ev p r
  simp only [contadoresVivo, Prod.mk.injEq] at h
  exact h.2.2.2

theorem registrar_vivo (p : Personaje) (v : Int) :
    (registrarEvento p v).vivo = p.vivo :=
  (registrarEvento_campos p v).2.2.2

/-- A character that was alive going into ejecutar_evento and comes out
dead was put on the dead-roster by marcar_como_muerto. -/
theorem ejecutar_muerto_en_roster (ev : Evento) (az : Azar) (p : Personaje)
    (m : List Personaje) (hp : p.vivo = true)
    (hq : (ejecutarEvento ev az p m).1.vivo = false) :
    (ejecutarEvento ev az p m).1 ∈ (ejecutarEvento ev az p m).2 := by
  simp only [ejecutarEvento] at hq ⊢
  split_ifs at hq ⊢ with hm
  · unfold marcarComoMuerto at hq ⊢
    split_ifs at hq ⊢ with hd
    · exfalso
      cases hrr : calcularResultado ev az p <;>
        simp_all [registrar_vivo, aplicar_vivo]
    · simp
  · exfalso
    cases hrr : calcularResultado ev az p <;>
      simp_all [registrar_vivo, aplicar_vivo]

/-- The per-character loop returns immediately on a dead character. -/
theorem simularTurnos_muerto (plan : List (Option (Evento × Azar)))
    (p : Personaje) (m : List Personaje) (hp : p.vivo = false) :
    simularTurnos plan p m = (p, m, []) := by
  cases plan with
  | nil => rfl
  | cons t resto => simp [simularTurnos, hp]

/-- Claim C6: in the per-character simulation loop, every character state
handed to ejecutar_evento (i.e. every subject of a resolve or
applyConsequences call) has the alive flag up — once it goes down the loop
breaks before fetching another event — and a character that started alive
and ended dead is on the dead-roster. -/
theorem muertos_excluidos :
    ∀ (plan : List (Option (Evento × Azar))) (p : Personaje)
      (muertos : List Personaje),
      (∀ q ∈ (simularTurnos plan p muertos).2.2, q.vivo = true) ∧
      (p.vivo = true →
        (simularTurnos plan p muertos).1.vivo = false →
        (simularTurnos plan p muertos).1 ∈
          (simularTurnos plan p muertos).2.1) := by
  intro plan
  induction plan with
  | nil =>
      intro p muertos
      refine ⟨by simp [simularTurnos], ?_⟩
      intro hv hf
      simp only [simularTurnos] at hf
      rw [hv] at hf
      cases hf
  | cons turno resto ih =>
      intro p muertos
      cases hpv : p.vivo with
      | false =>
          rw [simularTurnos_muerto (turno :: resto) p muertos hpv]
          exact ⟨by simp, fun hv _ => by simp at hv⟩
      | true =>
          cases turno with
          | none =>
              simp only [simularTurnos, hpv]
              simpa [hpv] using ih p muertos
          | some pareja =>
              obtain ⟨ev, az⟩ := pareja
              simp only [simularTurnos, hpv, Bool.true_eq_false,
                if_false]
              refine ⟨?_, ?_⟩
              · intro q hq
                rcases List.mem_cons.mp hq with rfl | hq2
                · exact hpv
                · exact (ih _ _).1 q hq2
              · intro _ hf
                cases hqv : (ejecutarEvento ev az p muertos).1.vivo with
                | true => exact (ih _ _).2 hqv hf
                | false =>
                    rw [simularTurnos_muerto resto _ _ hqv] at hf ⊢
                    exact ejecutar_muerto_en_roster ev az p muertos hpv hqv

/-- Witness for the claim C6 theorem: a concrete two-turn run in which the
first event (an epic failure with the death oracle set) kills the
character; the one subject of the run was alive, and the dead character
lies on the final dead-roster. -/
theorem muertos_excluidos_witness :
    pBase.vivo = true ∧
      (simularTurnos
          [some (.atributo "F" none, ⟨false, 2, true⟩),
            some (.atributo "F" none, ⟨false, 2, true⟩)] pBase []).1 ∈
        (simularTurnos
            [some (.atributo "F" none, ⟨false, 2, true⟩),
              some (.atributo "F" none, ⟨false, 2, true⟩)] pBase []).2.1 :=
  ⟨(muertos_excluidos
      [some (.atributo "F" none, ⟨false, 2, true⟩),
        some (.atributo "F" none, ⟨false, 2, true⟩)] pBase []).1 pBase
      (by decide),
    (muertos_excluidos
        [some (.atributo "F" none, ⟨false, 2, true⟩),
          some (.atributo "F" none, ⟨false, 2, true⟩)] pBase []).2
      (by decide) (by decide)⟩

theorem getAttr_reservado1 (p : Personaje) (x : Reservado1) (j : Nat) :
    getAttr { p with reservado1 := x } j = getAttr p j := by
  simp [getAttr]

theorem pasoGlobal_eq (b : Int) (q : Personaje) (i : Nat)
    (hi : i ∈ atributosAbs) :
    pasoGlobal b q i = setAttr q i (max 0 (getAttr q i + b)) :=
  asegurar_setAttr q i _ hi

theorem global_fold_attr (b : Int) (p : Personaje) (j : Nat)
    (hj : j ∈ atributosAbs) :
    getAttr (atributosAbs.foldl (pasoGlobal b) p) j =
      max 0 (getAttr p j + b) := by
  simp only [atributosAbs, List.foldl_cons, List.foldl_nil]
  rw [pasoGlobal_eq b p 8 (by decide)]
  rw [pasoGlobal_eq b _ 10 (by decide)]
  rw [pasoGlobal_eq b _ 12 (by decide)]
  rw [pasoGlobal_eq b _ 14 (by decide)]
  rw [pasoGlobal_eq b _ 16 (by decide)]
  rw [pasoGlobal_eq b _ 18 (by decide)]
  rw [pasoGlobal_eq b _ 20 (by decide)]
  rw [pasoGlobal_eq b _ 22 (by decide)]
  simp only [atributosAbs, List.mem_cons, List.not_mem_nil, or_false] at hj
  rcases hj with rfl | rfl | rfl | rfl | rfl | rfl | rfl | rfl <;>
    simp [getAttr, setAttr]

theorem global_exito_attr (b : Int) (p : Personaje) (j : Nat)
    (hj : j ∈ atributosAbs) :
    getAttr (aplicarConsecuencias (.equipoGlobal b) p (some .exito)) j =
      max 0 (getAttr p j + b) := by
  simp only [aplicarConsecuencias, ne_eq]
  rw [if_neg (by simp)]
  rw [getAttr_recalc]
  exact global_fold_attr b p j hj

theorem nonneg_asegurar_paso (q : Personaje) (i : Nat)
    (hi : i ∈ atributosAbs)
    (hq : ∀ j ∈ atributosAbs, j ≠ i → 0 ≤ getAttr q j) :
    ∀ j ∈ atributosAbs, 0 ≤ getAttr (asegurarNoNegativo q i) j := by
  intro j hj
  by_cases h : j = i
  · subst h
    rw [getAttr_asegurar_same q j hj]
    exact le_max_left 0 _
  · rw [getAttr_asegurar_ne q i j hi hj h]
    exact hq j hj h

set_option maxHeartbeats 1600000 in
/-- Claim C4: every consequence application, for every event variant and
every outcome, keeps all eight absolute attributes non-negative whenever
they were non-negative before; and there is no upper clamp — a
non-negative global bonus lands in full on an already non-negative
attribute. -/
theorem atributos_no_negativos :
    (∀ (ev : Evento) (p : Personaje) (r : Option ResultadoEvento),
        (∀ j ∈ atributosAbs, 0 ≤ getAttr p j) →
        ∀ j ∈ atributosAbs, 0 ≤ getAttr (aplicarConsecuencias ev p r) j) ∧
      (∀ (p : Personaje) (b : Int), 0 ≤ b → 0 ≤ p.fAbs →
        (aplicarConsecuencias (.equipoGlobal b) p (some .exito)).fAbs =
          p.fAbs + b) := by
  constructor
  · intro ev p r hnn
    cases ev with
    | equipoSimple a be bf =>
        cases r with
        | none => exact hnn
        | some res =>
            intro j hj
            simp only [aplicarConsecuencias]
            rw [getAttr_recalc]
            refine nonneg_asegurar_paso _ _ (indice_mem a) ?_ j hj
            intro k hk hkne
            split_ifs <;>
              first
              | (rw [getAttr_setAttr_ne _ _ k _ (indice_mem a) hk hkne]
                 exact hnn k hk)
              | exact hnn k hk
    | equipoDoble a b be pen =>
        cases r with
        | none => exact hnn
        | some res =>
            intro j hj
            simp only [aplicarConsecuencias]
            split_ifs with h
            · exact hnn j hj
            · rw [getAttr_recalc]
              refine nonneg_asegurar_paso _ _ (indice_mem b) ?_ j hj
              intro k hk hkb
              by_cases hkp : k = obtener_indice_atributo a
              · subst hkp
                rw [getAttr_asegurar_same _ _ hk]
                exact le_max_left 0 _
              · rw [getAttr_asegurar_ne _ _ _ (indice_mem a) hk hkp]
                rw [getAttr_setAttr_ne _ _ k _ (indice_mem b) hk hkb]
                rw [getAttr_setAttr_ne _ _ k _ (indice_mem a) hk hkp]
                exact hnn k hk
    | equipoGlobal be =>
        cases r with
        | none => exact hnn
        | some res =>
            intro j hj
            simp only [aplicarConsecuencias]
            split_ifs with h
            · exact hnn j hj
            · rw [getAttr_recalc, global_fold_attr be p j hj]
              exact le_max_left 0 _
    | atributo ap as =>
        cases r with
        | none => exact hnn
        | some res =>
            cases as with
            | none =>
                intro j hj
                simp only [aplicarConsecuencias]
                rw [getAttr_recalc]
                refine nonneg_asegurar_paso _ _ (indice_mem ap) ?_ j hj
                intro k hk hkne
                rw [getAttr_setAttr_ne _ _ k _ (indice_mem ap) hk hkne]
                exact hnn k hk
            | some s =>
                intro j hj
                simp only [aplicarConsecuencias]
                rw [getAttr_recalc]
                by_cases h3 : 3 ≤ |res.value|
                · rw [if_pos h3]
                  generalize (if 0 < res.value then (1 : Int) else -1) = cambio
                  refine nonneg_asegurar_paso _ _ (indice_mem s) ?_ j hj
                  intro k hk hks
                  rw [getAttr_setAttr_ne _ _ k _ (indice_mem s) hk hks]
                  by_cases hkp : k = obtener_indice_atributo ap
                  · subst hkp
                    rw [getAttr_asegurar_same _ _ hk]
                    exact le_max_left 0 _
                  · rw [getAttr_asegurar_ne _ _ _ (indice_mem ap) hk hkp]
                    rw [getAttr_setAttr_ne _ _ k _ (indice_mem ap) hk hkp]
                    exact hnn k hk
                · rw [if_neg h3]
                  refine nonneg_asegurar_paso _ _ (indice_mem ap) ?_ j hj
                  intro k hk hkne
                  rw [getAttr_setAttr_ne _ _ k _ (indice_mem ap) hk hkne]
                  exact hnn k hk
    | caracteristica f bb e i ts =>
        intro j hj
        cases hr1 : p.reservado1 <;>
          simp only [aplicarConsecuencias, hr1] <;>
            first
            | (rw [getAttr_reservado1]; exact hnn j hj)
            | (split_ifs <;> (rw [getAttr_reservado1]; exact hnn j hj))
  · intro p b hb hf
    have h := global_exito_attr b p 8 (by decide)
    simp [getAttr] at h
    omega

/-- Witness for the claim C4 theorem: attributes stay non-negative after a
two-attribute equipment success with a large penalty, and a global +5
success adds 5 in full to an attribute at 50. -/
theorem atributos_no_negativos_witness :
    0 ≤ getAttr (aplicarConsecuencias (.equipoDoble "F" "RM" 5 (-60)) pBase
        (some .exito)) 10 ∧
      (aplicarConsecuencias (.equipoGlobal 5) pBase (some .exito)).fAbs =
        pBase.fAbs + 5 :=
  ⟨atributos_no_negativos.1 (.equipoDoble "F" "RM" 5 (-60)) pBase
      (some .exito) (by decide) 10 (by decide),
    atributos_no_negativos.2 pBase 5 (by decide) (by decide)⟩

/-- Claim C5: for every event variant and every outcome, when the total
field was the exact sum of the eight absolute attributes it still is after
aplicar_consecuencias; no operation mutates the total independently of the
attributes. -/
theorem suma_total_invariante :
    ∀ (ev : Evento) (p : Personaje) (r : Option ResultadoEvento),
      p.sumaTotal = sumAtributos p →
      (aplicarConsecuencias ev p r).sumaTotal =
        sumAtributos (aplicarConsecuencias ev p r) := by
  intro ev p r h
  cases ev with
  | equipoSimple a be bf =>
      cases r with
      | none => exact h
      | some res =>
          simp only [aplicarConsecuencias]
          exact recalc_total_eq _
  | equipoDoble a b be pen =>
      cases r with
      | none => exact h
      | some res =>
          simp only [aplicarConsecuencias]
          split_ifs with hne
          · exact h
          · exact recalc_total_eq _
  | equipoGlobal be =>
      cases r with
      | none => exact h
      | some res =>
          simp only [aplicarConsecuencias]
          split_ifs with hne
          · exact h
          · exact recalc_total_eq _
  | atributo ap as =>
      cases r with
      | none => exact h
      | some res =>
          simp only [aplicarConsecuencias]
          exact recalc_total_eq _
  | caracteristica f bb e i ts =>
      cases hr1 : p.reservado1 <;>
        simp only [aplicarConsecuencias, hr1] <;>
          first
          | (rw [sumAtributos_reservado1]; exact h)
          | (split_ifs <;> (rw [sumAtributos_reservado1]; exact h))

/-- Witness for the claim C5 theorem at a concrete event and character. -/
theorem suma_total_invariante_witness :
    (aplicarConsecuencias (.equipoGlobal 5) pBase (some .exito)).sumaTotal =
      sumAtributos (aplicarConsecuencias (.equipoGlobal 5) pBase
        (some .exito)) :=
  suma_total_invariante (.equipoGlobal 5) pBase (some .exito) (by decide)

/-- Claim C9: on a failure outcome the two-attribute and global equipment
sub-variants leave the character record completely unchanged, while the
single-attribute sub-variant adds its configured failure delta to its
target attribute (clamped at zero), recomputes the total and touches
nothing else; on a success the global sub-variant adds its bonus to all
eight attributes (each clamped at zero from below). -/
theorem equipo_marco :
    (∀ (a b : String) (be pen : Int) (p : Personaje),
        aplicarConsecuencias (.equipoDoble a b be pen) p (some .fracaso) =
          p) ∧
      (∀ (be : Int) (p : Personaje),
        aplicarConsecuencias (.equipoGlobal be) p (some .fracaso) = p) ∧
      (∀ (a : String) (be bf : Int) (p : Personaje),
        aplicarConsecuencias (.equipoSimple a be bf) p (some .fracaso) =
          recalcularSumaTotal
            (setAttr p (obtener_indice_atributo a)
              (max 0 (getAttr p (obtener_indice_atributo a) + bf))) ∧
        camposSim (aplicarConsecuencias (.equipoSimple a be bf) p
            (some .fracaso)) = camposSim p ∧
        (∀ j ∈ atributosAbs, j ≠ obtener_indice_atributo a →
          getAttr (aplicarConsecuencias (.equipoSimple a be bf) p
              (some .fracaso)) j = getAttr p j)) ∧
      (∀ (be : Int) (p : Personaje), ∀ j ∈ atributosAbs,
        getAttr (aplicarConsecuencias (.equipoGlobal be) p (some .exito)) j =
          max 0 (getAttr p j + be)) := by
  refine ⟨?_, ?_, ?_, ?_⟩
  · intro a b be pen p
    simp [aplicarConsecuencias]
  · intro be p
    simp [aplicarConsecuencias]
  · intro a be bf p
    have hno : (ResultadoEvento.fracaso = ResultadoEvento.exito) = False := by
      simp
    have hsi : (ResultadoEvento.fracaso = ResultadoEvento.fracaso) = True := by
      simp
    refine ⟨?_, ?_, ?_⟩
    · simp only [aplicarConsecuencias, hno, hsi, if_false, if_true]
      rw [asegurar_setAttr _ _ _ (indice_mem a)]
    · simp only [aplicarConsecuencias, hno, hsi, if_false, if_true]
      simp [camposSim_recalc, camposSim_asegurar, camposSim_setAttr]
    · intro j hj hne
      simp only [aplicarConsecuencias, hno, hsi, if_false, if_true]
      rw [getAttr_recalc]
      rw [getAttr_asegurar_ne _ _ _ (indice_mem a) hj hne]
      exact getAttr_setAttr_ne _ _ j _ (indice_mem a) hj hne
  · intro be p j hj
    exact global_exito_attr be p j hj

/-- Witness for the claim C9 theorem at concrete events and characters. -/
theorem equipo_marco_witness :
    aplicarConsecuencias (.equipoDoble "F" "RM" 5 (-2)) pBase
        (some .fracaso) = pBase ∧
      aplicarConsecuencias (.equipoGlobal 4) pBase (some .fracaso) = pBase ∧
      getAttr (aplicarConsecuencias (.equipoSimple "A" 5 (-1)) pBase
          (some .fracaso)) 10 = getAttr pBase 10 ∧
      getAttr (aplicarConsecuencias (.equipoGlobal 4) pBase (some .exito))
          22 = max 0 (getAttr pBase 22 + 4) :=
  ⟨equipo_marco.1 "F" "RM" 5 (-2) pBase,
    equipo_marco.2.1 4 pBase,
    (equipo_marco.2.2.1 "A" 5 (-1) pBase).2.2 10 (by decide) (by decide),
    equipo_marco.2.2.2 4 pBase 22 (by decide)⟩

/-- Claim C10: obtener_indice_atributo returns index 8 — the index of
attribute F — for every string that is not one of the eight attribute
names, so an event configured with an unrecognized target attribute
silently applies its effects to F. -/
theorem indice_atributo_desconocido :
    ∀ (s : String), s ≠ "F" → s ≠ "RM" → s ≠ "RF" → s ≠ "A" → s ≠ "I" →
      s ≠ "M" → s ≠ "E" → s ≠ "C" →
      obtener_indice_atributo s = 8 ∧
      obtener_indice_atributo s = obtener_indice_atributo "F" ∧
      ∀ (be bf : Int) (p : Personaje) (r : Option ResultadoEvento),
        aplicarConsecuencias (.equipoSimple s be bf) p r =
          aplicarConsecuencias (.equipoSimple "F" be bf) p r := by
  intro s h1 h2 h3 h4 h5 h6 h7 h8
  have hidx : obtener_indice_atributo s = 8 := by
    simp [obtener_indice_atributo, h1, h2, h3, h4, h5, h6, h7, h8]
  have hF : obtener_indice_atributo "F" = 8 := rfl
  refine ⟨hidx, by rw [hidx, hF], ?_⟩
  intro be bf p r
  cases r with
  | none => rfl
  | some res => simp only [aplicarConsecuencias, hidx, hF]

/-- Witness for the claim C10 theorem at the unrecognized name X. -/
theorem indice_atributo_desconocido_witness :
    obtener_indice_atributo "X" = 8 ∧
      aplicarConsecuencias (.equipoSimple "X" 5 0) pBase (some .exito) =
        aplicarConsecuencias (.equipoSimple "F" 5 0) pBase (some .exito) :=
  ⟨(indice_atributo_desconocido "X" (by decide) (by decide) (by decide)
      (by decide) (by decide) (by decide) (by decide) (by decide)).1,
    (indice_atributo_desconocido "X" (by decide) (by decide) (by decide)
        (by decide) (by decide) (by decide) (by decide) (by decide)).2.2
      5 0 pBase (some .exito)⟩

theorem bonoAtributo_cincuenta : bonoAtributo 50 = 0 := by decide

theorem bonoMistico_cincuenta : bonoMistico 50 = 0 := by decide

/-- Claim C8: for a character with all eight attributes at the baseline 50
and no entry in the class-modifier table, the normalized weights are
exactly 20 for each of the five categories; and whenever the
pre-normalization weights sum to a non-positive total, normalization
returns the equal base weights instead of dividing. -/
theorem pesos_base_equilibrados :
    (∀ (modClase : String → Option ModificadoresClase) (p : Personaje),
        modClase p.clase = none →
        p.fAbs = 50 → p.rmAbs = 50 → p.rfAbs = 50 → p.aAbs = 50 →
        p.iAbs = 50 → p.mAbs = 50 → p.eAbs = 50 → p.cAbs = 50 →
        calcularPesos modClase p = PESOS_BASE) ∧
      (∀ (w : Pesos), sumaPesos w ≤ 0 → normalizarPesos w = PESOS_BASE) := by
  constructor
  · intro mc p hmc hf hrm hrf ha hi hm he hc
    simp only [calcularPesos, aplicarModificadoresClase, hmc]
    simp only [aplicarModificadoresAtributos, hf, hrm, hrf, ha, hi, hm, he,
      hc, bonoAtributo_cincuenta, bonoMistico_cincuenta]
    simp only [normalizarPesos, sumaPesos, PESOS_BASE]
    norm_num
  · intro w hw
    unfold normalizarPesos
    rw [if_pos hw]

/-- Witness for the claim C8 theorem: the baseline character with an empty
modifier table gets exactly the base weights, and an all-zero weight vector
falls back to the base weights. -/
theorem pesos_base_equilibrados_witness :
    calcularPesos (fun _ => none) pBase = PESOS_BASE ∧
      normalizarPesos ⟨0, 0, 0, 0, 0⟩ = PESOS_BASE :=
  ⟨pesos_base_equilibrados.1 (fun _ => none) pBase rfl rfl rfl rfl rfl rfl
      rfl rfl rfl,
    pesos_base_equilibrados.2 ⟨0, 0, 0, 0, 0⟩ (by norm_num [sumaPesos])⟩

/-- Claim C7, counterexample: a legacy integer counter of 0 is an integer,
yet the code replaces the slot by the one-element list holding only the new
record — no synthesized historic record appears, against the claim that a
legacy integer counter always becomes a historic record followed by the new
one. -/
theorem caracteristica_entero_cero_contraejemplo :
    (aplicarConsecuencias
        (.caracteristica "Bendición de la Vida" true "res" "C1" 7)
        { pBase with reservado1 := .entero 0 } none).reservado1 =
      Reservado1.lista
        [⟨"Bendición de la Vida", true, "res", "C1", 7, true⟩] ∧
      (aplicarConsecuencias
          (.caracteristica "Bendición de la Vida" true "res" "C1" 7)
          { pBase with reservado1 := .entero 0 } none).reservado1 ≠
        Reservado1.lista
          [⟨"Histórico", false, "caracteristicas_antiguas_0", "legacy", 0,
              true⟩,
            ⟨"Bendición de la Vida", true, "res", "C1", 7, true⟩] := by
  constructor
  · decide
  · decide

/-- Claim C7, amended: a characteristic event always appends exactly one
new record, normalizing the slot by cases: absent/None becomes a new
one-element list, an existing list is appended to preserving order, a
POSITIVE legacy integer counter becomes a list with one synthesized
historic record preserving the old count followed by the new record, while
a non-positive integer counter — like any other type — is replaced by the
one-element list with just the new record; two applications in sequence
from an absent slot yield the two records in insertion order. -/
theorem caracteristica_normaliza :
    ∀ (f : String) (bb : Bool) (e i : String) (ts : Int) (p : Personaje)
      (r : Option ResultadoEvento),
      (p.reservado1 = .nada →
        (aplicarConsecuencias (.caracteristica f bb e i ts) p r).reservado1 =
          .lista [⟨f, bb, e, i, ts, true⟩]) ∧
      (∀ rs, p.reservado1 = .lista rs →
        (aplicarConsecuencias (.caracteristica f bb e i ts) p r).reservado1 =
          .lista (rs ++ [⟨f, bb, e, i, ts, true⟩])) ∧
      (∀ n : Int, p.reservado1 = .entero n → 0 < n →
        (aplicarConsecuencias (.caracteristica f bb e i ts) p r).reservado1 =
          .lista
            [⟨"Histórico", false,
                "caracteristicas_antiguas_" ++ toString n, "legacy", 0,
                true⟩,
              ⟨f, bb, e, i, ts, true⟩]) ∧
      (∀ n : Int, p.reservado1 = .entero n → n ≤ 0 →
        (aplicarConsecuencias (.caracteristica f bb e i ts) p r).reservado1 =
          .lista [⟨f, bb, e, i, ts, true⟩]) ∧
      (p.reservado1 = .otro →
        (aplicarConsecuencias (.caracteristica f bb e i ts) p r).reservado1 =
          .lista [⟨f, bb, e, i, ts, true⟩]) ∧
      (∀ (f2 : String) (bb2 : Bool) (e2 i2 : String) (ts2 : Int)
          (r2 : Option ResultadoEvento),
        p.reservado1 = .nada →
        (aplicarConsecuencias (.caracteristica f2 bb2 e2 i2 ts2)
            (aplicarConsecuencias (.caracteristica f bb e i ts) p r)
            r2).reservado1 =
          .lista [⟨f, bb, e, i, ts, true⟩,
            ⟨f2, bb2, e2, i2, ts2, true⟩]) := by
  intro f bb e i ts p r
  refine ⟨?_, ?_, ?_, ?_, ?_, ?_⟩
  · intro h
    simp [aplicarConsecuencias, h]
  · intro rs h
    simp [aplicarConsecuencias, h]
  · intro n h hn
    simp [aplicarConsecuencias, h, hn]
  · intro n h hn
    have : ¬ 0 < n := by omega
    simp [aplicarConsecuencias, h, this]
  · intro h
    simp [aplicarConsecuencias, h]
  · intro f2 bb2 e2 i2 ts2 r2 h
    simp [aplicarConsecuencias, h]

/-- Witness for the claim C7 theorem: applying one then a second
characteristic event to a character whose slot starts absent. -/
theorem caracteristica_normaliza_witness :
    (aplicarConsecuencias (.caracteristica "B" true "e" "C1" 1) pBase
        none).reservado1 =
      .lista [⟨"B", true, "e", "C1", 1, true⟩] ∧
      (aplicarConsecuencias (.caracteristica "B2" false "e2" "C2" 2)
          (aplicarConsecuencias (.caracteristica "B" true "e" "C1" 1) pBase
            none)
          none).reservado1 =
        .lista [⟨"B", true, "e", "C1", 1, true⟩,
          ⟨"B2", false, "e2", "C2", 2, true⟩] :=
  ⟨(caracteristica_normaliza "B" true "e" "C1" 1 pBase none).1 rfl,
    (caracteristica_normaliza "B" true "e" "C1" 1 pBase none).2.2.2.2.2 "B2"
      false "e2" "C2" 2 none rfl⟩

end Simulador
